import Mathlib

/-
Verification of the `inseq` attribution-model wrapper
(`src/inseq/models/attribution_model.py`).

The embedding models the `AttributionModel` base class as an explicit state
(`ModelState`), with its methods as state transformers that additionally
record a trace of observable calls (`Event`) into external collaborators.
Python truthiness of strings, lists and `None` is modelled explicitly
(`pyTruthyStr`, `pyTruthyTextInput`, ...), since the source branches on it
(`if not method`, `if not texts`, `if reference_texts and ...`).
Exceptions are modelled with `Except InseqError`.

Collaborators that live outside the excerpt (`FeatureAttribution.load`,
`prepare_and_attribute`, the abstract `generate` / `encode_texts`) are
modelled from the spec; each such definition says so in its doc comment.
Fields of the Python object that no modelled operation ever reads
(`self.model`, `self.is_hooked`, `self.device`) are omitted from the state.
-/

namespace Inseq

/-- An attribution method instance. `name` is the method name it was loaded
from; `id` is a freshness counter distinguishing separately constructed
instances (Python object identity). -/
structure Method where
  name : String
  id : Nat
deriving DecidableEq

/-- The two error types surfaced by this layer
(`MissingAttributionMethodError`, `LengthMismatchError`). -/
inductive InseqError where
  | missingAttributionMethod
  | lengthMismatch (inputLen refLen : Nat)
deriving DecidableEq

/-- Tokenized batch, opaque to this layer beyond carrying the texts and the
`return_baseline` flag it was produced with. -/
structure BatchEncoding where
  texts : List String
  return_baseline : Bool
deriving DecidableEq

/-- Per-sequence attribution result (input/reference pair; scores are
computed by the external attribution method and are opaque here). -/
structure FeatureAttributionSequenceOutput where
  input_text : String
  reference_text : String
deriving DecidableEq

/-- Observable calls into external collaborators, recorded in order. -/
inductive Event where
  | unhook (m : Method)
  | loadMethod (name : String)
  | encodeTexts (texts : List String) (return_baseline : Bool)
  | generate (enc : BatchEncoding)
  | getMethod (method : Option String) (override : Bool)
  | prepareAndAttribute (refs : List String)
deriving DecidableEq

/-- The mutable state of an `AttributionModel`: the stored default
attribution method (`self.attribution_method`, `None` initially) and the
freshness counter for newly constructed method instances. -/
structure ModelState where
  attribution_method : Option Method
  nextId : Nat
deriving DecidableEq

/-- `TextInput = Union[str, Sequence[str]]`. -/
inductive TextInput where
  | str (s : String)
  | seq (l : List String)
deriving DecidableEq

/-- Python truthiness of a string: `""` is falsy. -/
def pyTruthyStr (s : String) : Bool := !s.isEmpty

/-- Python truthiness of `Optional[str]`: `None` and `""` are falsy. -/
def pyTruthyOptStr : Option String → Bool
  | none => false
  | some s => pyTruthyStr s

/-- Python truthiness of a `TextInput`: `""` and `[]` are falsy. -/
def pyTruthyTextInput : TextInput → Bool
  | .str s => !s.isEmpty
  | .seq l => !l.isEmpty

/-- `texts = [texts] if isinstance(texts, str) else texts`. -/
def normalizeTexts : TextInput → List String
  | .str s => [s]
  | .seq l => l

/-- `reference_texts = [ref_texts] if isinstance(ref_texts, str) else ref_texts`
(`None` stays `None`). -/
def normalizeRefs : Option TextInput → Option (List String)
  | none => none
  | some (.str s) => some [s]
  | some (.seq l) => some l

/-- Python truthiness of the normalized reference texts:
`None` and `[]` are falsy. -/
def refsTruthy : Option (List String) → Bool
  | none => false
  | some l => !l.isEmpty

/-- Modelled from the spec: `FeatureAttribution.load(methodName, attribution_model)`
(section 4.2, outside this excerpt) constructs a fresh method instance bound to
the model. Freshness is modelled by the `nextId` counter. -/
def FeatureAttribution.load (method : String) (s : ModelState) : Method × ModelState :=
  (⟨method, s.nextId⟩, { s with nextId := s.nextId + 1 })

/-- `AttributionModel.get_attribution_method(method=None, override_default_attribution=False)`.
Returns the resolved method (or raises), the post state and the event trace. -/
def get_attribution_method (s : ModelState) (method : Option String)
    (override_default_attribution : Bool) :
    Except InseqError Method × ModelState × List Event :=
  if ¬ pyTruthyOptStr method then
    match s.attribution_method with
    | none => (.error .missingAttributionMethod, s, [])
    | some m => (.ok m, s, [])
  else
    let name := method.getD ""
    match s.attribution_method with
    | some old =>
      if override_default_attribution then
        let (m, s1) := FeatureAttribution.load name s
        (.ok m, { s1 with attribution_method := some m }, [.unhook old, .loadMethod name])
      else
        let (m, s1) := FeatureAttribution.load name s
        (.ok m, s1, [.unhook old, .loadMethod name])
    | none =>
      let (m, s1) := FeatureAttribution.load name s
      (.ok m, { s1 with attribution_method := some m }, [.loadMethod name])

/-- `AttributionModel.format_input_texts(texts, ref_texts=None)`. -/
def format_input_texts (texts : TextInput) (ref_texts : Option TextInput) :
    Except InseqError (List String × Option (List String)) :=
  let ts := normalizeTexts texts
  let rs := normalizeRefs ref_texts
  if refsTruthy rs && (ts.length != (rs.getD []).length) then
    .error (.lengthMismatch ts.length (rs.getD []).length)
  else
    .ok (ts, rs)

/-- Modelled from the spec: the abstract `encode_texts` (implemented by the
concrete adapter, outside this excerpt) tokenizes raw text into a
`BatchEncoding`, optionally retaining a baseline representation. -/
def encode_texts (ts : List String) (return_baseline : Bool) : BatchEncoding :=
  ⟨ts, return_baseline⟩

/-- Modelled from the spec: the abstract `generate` (implemented by the
concrete adapter, outside this excerpt) produces one reference output text
per encoded input sequence via the wrapped generative model, abstracted here
as the function `gen`. -/
structure ModelAdapter where
  gen : String → String

/-- Modelled from the spec: `generate(encodings, return_generation_output=False)`
returns a list of generated texts, one per sequence of the batch. -/
def generate (a : ModelAdapter) (enc : BatchEncoding) : List String :=
  enc.texts.map a.gen

/-- The first positional argument of `prepare_and_attribute`: either the
normalized raw texts (when reference texts were supplied) or the
`BatchEncoding` that `texts` was reassigned to (when they were generated). -/
inductive AttrInput where
  | raw (ts : List String)
  | encoded (enc : BatchEncoding)
deriving DecidableEq

/-- The sequences carried by an `AttrInput`. -/
def AttrInput.inputTexts : AttrInput → List String
  | .raw ts => ts
  | .encoded enc => enc.texts

/-- Modelled from the spec: `FeatureAttribution.prepare_and_attribute`
(section 4.2, outside this excerpt) performs the scoring pass and returns one
`FeatureAttributionSequenceOutput` per input pair. -/
def prepare_and_attribute (inp : AttrInput) (refs : List String) :
    List FeatureAttributionSequenceOutput :=
  (List.range inp.inputTexts.length).map fun i =>
    ⟨inp.inputTexts.getD i "", refs.getD i ""⟩

/-- The dynamic shape of `attribute`'s return value: Python is untyped, so the
declared overloads (`str -> FeatureAttributionSequenceOutput`,
`Sequence[str] -> List[...]`) are modelled by this tagged union of the two
declared shapes. -/
inductive AttributeValue where
  | list (l : List FeatureAttributionSequenceOutput)
  | single (o : FeatureAttributionSequenceOutput)
deriving DecidableEq

/-- `AttributionModel.attribute(texts, reference_texts=None, method=None,
override_default_attribution=False, ...)`. Returns the result (or raises),
the post state and the event trace. -/
def «attribute» (a : ModelAdapter) (s : ModelState) (texts : TextInput)
    (reference_texts : Option TextInput) (method : Option String)
    (override_default_attribution : Bool) :
    Except InseqError AttributeValue × ModelState × List Event :=
  if ¬ pyTruthyTextInput texts then
    (.ok (.list []), s, [])
  else
    match format_input_texts texts reference_texts with
    | .error e => (.error e, s, [])
    | .ok (ts, rs) =>
      if !refsTruthy rs then
        let enc := encode_texts ts true
        let refs := generate a enc
        let ev0 := [Event.encodeTexts ts true, Event.generate enc,
          Event.getMethod method override_default_attribution]
        match get_attribution_method s method override_default_attribution with
        | (.error e, s1, ev) => (.error e, s1, ev0 ++ ev)
        | (.ok _, s1, ev) =>
          (.ok (.list (prepare_and_attribute (.encoded enc) refs)), s1,
            ev0 ++ ev ++ [.prepareAndAttribute refs])
      else
        let refs := rs.getD []
        let ev0 := [Event.getMethod method override_default_attribution]
        match get_attribution_method s method override_default_attribution with
        | (.error e, s1, ev) => (.error e, s1, ev0 ++ ev)
        | (.ok _, s1, ev) =>
          (.ok (.list (prepare_and_attribute (.raw ts) refs)), s1,
            ev0 ++ ev ++ [.prepareAndAttribute refs])

/-- `AttributionModel.__init__(attribution_method=None)`: starts from the
no-method state, resolves the method eagerly via `get_attribution_method`,
and stores the returned method. -/
def AttributionModel.init (attribution_method : Option String) :
    Except InseqError ModelState :=
  let s0 : ModelState := { attribution_method := none, nextId := 0 }
  match get_attribution_method s0 attribution_method false with
  | (.error e, _, _) => .error e
  | (.ok m, s1, _) => .ok { s1 with attribution_method := some m }

/-- The concrete adapter returned by the `load` factory. Keyword arguments
are modelled as an association list from names to (the truthiness of) their
values, which is all `load` inspects. -/
inductive LoadedModel where
  | huggingface (model_name_or_path : String) (attribution_method : Option String)
      (kwargs : List (String × Bool))
deriving DecidableEq

/-- `kwargs.pop("from_hf", None)`: the looked-up value and the remaining
keyword arguments. -/
def popFromHf (kwargs : List (String × Bool)) : Option Bool × List (String × Bool) :=
  (kwargs.lookup "from_hf", kwargs.filter fun p => p.1 != "from_hf")

/-- The module-level `load` factory, as written: pops `from_hf` and branches
on it, both branches constructing `HuggingfaceModel` identically. -/
def load (model_name_or_path : String) (attribution_method : Option String)
    (kwargs : List (String × Bool)) : LoadedModel :=
  let from_hf := (popFromHf kwargs).1
  let rest := (popFromHf kwargs).2
  if from_hf.getD false then
    .huggingface model_name_or_path attribution_method rest
  else
    .huggingface model_name_or_path attribution_method rest

/-- Stated from the spec's words (refinement reference): the `load` factory
always routes to the hub-backed adapter with the given arguments, regardless
of the `from_hf` flag. -/
def load_spec (model_name_or_path : String) (attribution_method : Option String)
    (kwargs : List (String × Bool)) : LoadedModel :=
  .huggingface model_name_or_path attribution_method (popFromHf kwargs).2

/-- Does `attribute`'s outcome consist of raising `LengthMismatchError`? -/
def isLengthMismatchB : Except InseqError AttributeValue → Bool
  | .error (.lengthMismatch _ _) => true
  | _ => false

end Inseq

namespace Inseq

/-- Helper: `get_attribution_method` can only raise `MissingAttributionMethodError`;
it never raises `LengthMismatchError`. -/
theorem get_attribution_method_error_missing (s : ModelState) (method : Option String)
    (o : Bool) (e : InseqError)
    (h : (get_attribution_method s method o).1 = .error e) :
    e = .missingAttributionMethod := by
  unfold get_attribution_method at h
  by_cases hm : pyTruthyOptStr method = true <;>
    rcases hs : s.attribution_method with _ | old <;>
      rw [hs] at h <;> rcases o <;>
        simp_all [FeatureAttribution.load]

end Inseq

namespace Inseq

/-- C1 counterexample: with stored default A (`⟨"A", 0⟩`), calling
`get_attribution_method("B", override_default=False)` DOES invoke A's
`unhook` (the trace starts with it), refuting the claim's conjunct
"does not invoke A's unhook". -/
theorem C1_counterexample :
    (get_attribution_method ⟨some ⟨"A", 0⟩, 1⟩ (some "B") false).2.2
      = [.unhook ⟨"A", 0⟩, .loadMethod "B"] := rfl

/-- C1 (amended): for every model whose stored default is A, calling
`get_attribution_method("B", override_default=False)` returns a newly
constructed B instance (fresh id `s.nextId`), leaves A as the stored
default, and invokes A's `unhook` once before constructing B. -/
theorem C1_no_override_keeps_default (s : ModelState) (a : Method)
    (h : s.attribution_method = some a) :
    get_attribution_method s (some "B") false
      = (.ok ⟨"B", s.nextId⟩, ⟨some a, s.nextId + 1⟩,
         [.unhook a, .loadMethod "B"]) := by
  unfold get_attribution_method FeatureAttribution.load
  rw [h]
  rfl

/-- C1 witness: the amended claim evaluated at a concrete model whose
stored default is `⟨"A", 0⟩`. -/
theorem C1_witness :
    get_attribution_method ⟨some ⟨"A", 0⟩, 1⟩ (some "B") false
      = (.ok ⟨"B", 1⟩, ⟨some ⟨"A", 0⟩, 2⟩, [.unhook ⟨"A", 0⟩, .loadMethod "B"]) :=
  C1_no_override_keeps_default ⟨some ⟨"A", 0⟩, 1⟩ ⟨"A", 0⟩ rfl

/-- C3 counterexample: the empty string is a non-None method argument, yet
with a stored default the call performs no `unhook` (empty trace) and
constructs nothing: Python's `if not method` treats `""` as missing and the
stored default is returned untouched. -/
theorem C3_counterexample :
    get_attribution_method ⟨some ⟨"A", 0⟩, 1⟩ (some "") false
      = (.ok ⟨"A", 0⟩, ⟨some ⟨"A", 0⟩, 1⟩, []) := rfl

/-- C3 (amended): for every call to `get_attribution_method` with a truthy
(non-empty) method string while a default is stored, the default's `unhook`
is invoked before the new method is constructed (the trace is exactly
`unhook` then `loadMethod`), regardless of the override flag. -/
theorem C3_unhook_precedes_construction (s : ModelState) (a : Method)
    (name : String) (override : Bool) (h : s.attribution_method = some a)
    (hn : pyTruthyStr name = true) :
    (get_attribution_method s (some name) override).2.2
      = [.unhook a, .loadMethod name] := by
  unfold get_attribution_method
  rw [h]
  simp only [pyTruthyOptStr, hn, not_true_eq_false, if_false]
  rcases override <;> rfl

/-- C3 witness: the amended claim evaluated at a concrete model with stored
default `⟨"A", 0⟩` and method name `"B"`. -/
theorem C3_witness :
    (get_attribution_method ⟨some ⟨"A", 0⟩, 1⟩ (some "B") false).2.2
      = [.unhook ⟨"A", 0⟩, .loadMethod "B"] :=
  C3_unhook_precedes_construction ⟨some ⟨"A", 0⟩, 1⟩ ⟨"A", 0⟩ "B" false rfl rfl

/-- C7: for every model whose stored default is A, calling
`get_attribution_method("B", override_default=True)` makes the newly
constructed B the stored default and invokes A's `unhook` exactly once. -/
theorem C7_override_replaces_default (s : ModelState) (a : Method)
    (h : s.attribution_method = some a) :
    (get_attribution_method s (some "B") true).2.1.attribution_method
        = some ⟨"B", s.nextId⟩
    ∧ List.count (Event.unhook a)
        (get_attribution_method s (some "B") true).2.2 = 1 := by
  have hres : get_attribution_method s (some "B") true
      = (.ok ⟨"B", s.nextId⟩, ⟨some ⟨"B", s.nextId⟩, s.nextId + 1⟩,
         [.unhook a, .loadMethod "B"]) := by
    unfold get_attribution_method FeatureAttribution.load
    rw [h]
    rfl
  rw [hres]
  refine ⟨rfl, ?_⟩
  simp [List.count_cons]

/-- C7 witness: the claim evaluated at a concrete model whose stored
default is `⟨"A", 0⟩`. -/
theorem C7_witness :
    (get_attribution_method ⟨some ⟨"A", 0⟩, 1⟩ (some "B") true).2.1.attribution_method
        = some ⟨"B", 1⟩
    ∧ List.count (Event.unhook ⟨"A", 0⟩)
        (get_attribution_method ⟨some ⟨"A", 0⟩, 1⟩ (some "B") true).2.2 = 1 :=
  C7_override_replaces_default ⟨some ⟨"A", 0⟩, 1⟩ ⟨"A", 0⟩ rfl

/-- C5: for the empty input sequence, `attribute` returns the empty list
with an unchanged state and an empty trace: no `encode_texts`, `generate`,
`get_attribution_method` or `prepare_and_attribute` call is recorded and no
error is raised. -/
theorem C5_empty_input (a : ModelAdapter) (s : ModelState)
    (refs : Option TextInput) (method : Option String) (override : Bool) :
    «attribute» a s (.seq []) refs method override = (.ok (.list []), s, []) := rfl

/-- C9: the `load` factory is equivalent to the spec-side definition that
always constructs the hub-backed (Huggingface) adapter with the same
arguments; in particular both branches of the `from_hf` conditional agree,
for every value of the flag (true, false, or absent). -/
theorem C9_load_always_huggingface (name : String) (am : Option String)
    (kwargs : List (String × Bool)) :
    load name am kwargs = load_spec name am kwargs := by
  unfold load load_spec
  dsimp only
  split <;> rfl

/-- C10: constructing an `AttributionModel` with `attribution_method`
omitted (i.e. `None`) raises `MissingAttributionMethodError` during
`__init__`: the constructor resolves the method eagerly. -/
theorem C10_init_without_method_raises :
    AttributionModel.init none = .error .missingAttributionMethod := rfl

end Inseq

namespace Inseq

/-- C2 (code-bug evidence): `attribute` on the single string `"hello"`
returns the same value as on the one-element sequence `["hello"]`, namely
the one-element LIST of results: the implementation forwards
`prepare_and_attribute`'s per-input list unchanged, so the bare
`FeatureAttributionSequenceOutput` promised by the code's `@overload`
declaration for string input is never produced. -/
theorem C2_string_input_yields_one_element_list :
    «attribute» ⟨fun t => t⟩ ⟨some ⟨"m", 0⟩, 1⟩ (.str "hello")
        (some (.str "ciao")) none false
      = «attribute» ⟨fun t => t⟩ ⟨some ⟨"m", 0⟩, 1⟩ (.seq ["hello"])
          (some (.seq ["ciao"])) none false
    ∧ («attribute» ⟨fun t => t⟩ ⟨some ⟨"m", 0⟩, 1⟩ (.str "hello")
        (some (.str "ciao")) none false).1
      = .ok (.list [⟨"hello", "ciao"⟩]) :=
  ⟨rfl, rfl⟩

/-- C4 counterexample: the empty string as `texts` normalizes to `[""]`
(length 1, nonzero) and the references have length 2, so the claim predicts
`LengthMismatchError`; but `attribute` treats the empty string as falsy and
returns `[]` immediately without raising. -/
theorem C4_counterexample :
    «attribute» ⟨fun t => t⟩ ⟨some ⟨"m", 0⟩, 1⟩ (.str "")
        (some (.seq ["a", "b"])) none false
      = (.ok (.list []), ⟨some ⟨"m", 0⟩, 1⟩, []) := rfl

/-- C4 (amended): `attribute` raises `LengthMismatchError` if and only if
`texts` is truthy (a non-empty string or a non-empty sequence) and the
normalized `reference_texts` are non-empty with a length different from the
normalized texts; in particular, with equal lengths it never raises
`LengthMismatchError`. -/
theorem C4_length_mismatch_iff (a : ModelAdapter) (s : ModelState)
    (texts : TextInput) (refs : Option TextInput) (method : Option String)
    (override : Bool) :
    isLengthMismatchB («attribute» a s texts refs method override).1
      = (pyTruthyTextInput texts
          && (refsTruthy (normalizeRefs refs)
              && ((normalizeTexts texts).length
                    != ((normalizeRefs refs).getD []).length))) := by
  by_cases ht : pyTruthyTextInput texts = true
  · by_cases hc : (refsTruthy (normalizeRefs refs)
        && ((normalizeTexts texts).length
              != ((normalizeRefs refs).getD []).length)) = true
    · unfold «attribute» format_input_texts
      simp [ht, hc, isLengthMismatchB]
    · have hfmt : format_input_texts texts refs
          = .ok (normalizeTexts texts, normalizeRefs refs) := by
        unfold format_input_texts
        simp only [Bool.not_eq_true] at hc
        simp [hc]
      unfold «attribute»
      rw [if_neg (by simp [ht]), hfmt]
      simp only [Bool.not_eq_true] at hc
      dsimp only
      rcases hg : get_attribution_method s method override with ⟨r, s1, ev⟩
      rcases r with e | m
      · have he : e = .missingAttributionMethod :=
          get_attribution_method_error_missing s method override e (by rw [hg])
        subst he
        split <;> simp [isLengthMismatchB, ht, hc]
      · split <;> simp [isLengthMismatchB, ht, hc]
  · have ht' : pyTruthyTextInput texts = false := by
      revert ht; cases pyTruthyTextInput texts <;> simp
    unfold «attribute»
    rw [if_pos (by simp [ht'])]
    simp [isLengthMismatchB, ht']

end Inseq

namespace Inseq

/-- C6 counterexample: on a model with no stored default and `method`
omitted, `attribute` with mismatched reference texts raises
`LengthMismatchError`, not `MissingAttributionMethodError`: the length
check runs before method resolution. -/
theorem C6_counterexample :
    «attribute» ⟨fun t => t⟩ ⟨none, 0⟩ (.seq ["a"]) (some (.seq ["b", "c"]))
        none false
      = (.error (.lengthMismatch 1 2), ⟨none, 0⟩, []) := rfl

/-- C6 (amended): for every call to `attribute` with non-empty (truthy)
texts on a model with no stored default attribution method and with the
`method` argument omitted, provided the reference texts (when given) pass
the length check, `attribute` raises `MissingAttributionMethodError`. -/
theorem C6_missing_method_raises (a : ModelAdapter) (s : ModelState)
    (texts : TextInput) (refs : Option TextInput) (override : Bool)
    (p : List String × Option (List String))
    (hs : s.attribution_method = none) (ht : pyTruthyTextInput texts = true)
    (hf : format_input_texts texts refs = .ok p) :
    («attribute» a s texts refs none override).1
      = .error .missingAttributionMethod := by
  have hget : get_attribution_method s none override
      = (.error .missingAttributionMethod, s, []) := by
    unfold get_attribution_method
    rw [hs]
    rfl
  unfold «attribute»
  rw [if_neg (by simp [ht]), hf]
  dsimp only
  rw [hget]
  split <;> rfl

/-- C6 witness: the amended claim evaluated at a concrete no-default model
with a single text and no reference texts. -/
theorem C6_witness :
    («attribute» ⟨fun t => t⟩ ⟨none, 0⟩ (.str "hello") none none false).1
      = .error .missingAttributionMethod :=
  C6_missing_method_raises ⟨fun t => t⟩ ⟨none, 0⟩ (.str "hello") none false
    (["hello"], none) rfl rfl rfl

/-- C8: for every call to `attribute` with truthy texts and
`reference_texts` omitted, the trace starts with `encode_texts` on the
normalized texts with baseline retention enabled, then `generate` on the
resulting encoding; only afterwards is the attribution method resolved and,
on success, `prepare_and_attribute` run on the generated references. -/
theorem C8_encode_generate_before_attribution (a : ModelAdapter)
    (s : ModelState) (texts : TextInput) (method : Option String)
    (override : Bool) (ht : pyTruthyTextInput texts = true) :
    («attribute» a s texts none method override).2.2
      = Event.encodeTexts (normalizeTexts texts) true
        :: Event.generate (encode_texts (normalizeTexts texts) true)
        :: Event.getMethod method override
        :: ((get_attribution_method s method override).2.2
            ++ match (get_attribution_method s method override).1 with
               | .ok _ => [Event.prepareAndAttribute
                   (generate a (encode_texts (normalizeTexts texts) true))]
               | .error _ => []) := by
  have hfmt : format_input_texts texts none
      = .ok (normalizeTexts texts, none) := rfl
  unfold «attribute»
  rw [if_neg (by simp [ht]), hfmt]
  dsimp only
  rcases hg : get_attribution_method s method override with ⟨r, s1, ev⟩
  rcases r with e | m <;> simp [refsTruthy]

/-- C8 witness: the claim evaluated at a concrete model with a stored
default method, a single text and no reference texts. -/
theorem C8_witness :
    («attribute» ⟨fun t => t⟩ ⟨some ⟨"m", 0⟩, 1⟩ (.str "hi") none none false).2.2
      = Event.encodeTexts ["hi"] true
        :: Event.generate (encode_texts ["hi"] true)
        :: Event.getMethod none false
        :: ((get_attribution_method ⟨some ⟨"m", 0⟩, 1⟩ none false).2.2
            ++ [Event.prepareAndAttribute ["hi"]]) :=
  C8_encode_generate_before_attribution ⟨fun t => t⟩ ⟨some ⟨"m", 0⟩, 1⟩
    (.str "hi") none false rfl

end Inseq
